import Mathlib

/-
  Verification of the Tatsoryk server-cpp stub (src/server-cpp/src/main.cpp).

  The program is embedded shallowly:
  * `std::cout` stream insertion becomes appending to a `String` buffer;
  * `std::stoi` becomes `stoi : String → Option Int`, where `none` models a
    raised exception (invalid_argument or out_of_range);
  * `main` becomes `main : List String → Option (String × Nat)`, taking the
    full argument vector (argv, with the program name at index 0) and
    returning the printed output together with the exit code, or `none` when
    the program terminates abnormally before printing anything.
-/

namespace Tatsoryk

/-- C locale isspace, as used by strtol under std::stoi: space, tab,
newline, vertical tab, form feed, carriage return. -/
def cppIsSpace (c : Char) : Bool :=
  c == ' ' || c == '\t' || c == '\n' || c == '\x0b' || c == '\x0c' || c == '\r'

/-- Value of a run of decimal digit characters. -/
def digitsVal (ds : List Char) : Nat :=
  ds.foldl (fun acc c => acc * 10 + (c.toNat - 48)) 0

/-- INT_MIN for a 32-bit int, the lower bound std::stoi enforces. -/
def intMin : Int := -2147483648

/-- INT_MAX for a 32-bit int, the upper bound std::stoi enforces. -/
def intMax : Int := 2147483647

/-- `std::stoi(s)` in base 10: skip leading whitespace, read an optional
sign and a run of decimal digits (trailing characters are ignored).
`none` models a raised exception: invalid_argument when no digits are
found, out_of_range when the value does not fit in int. -/
def stoi (s : String) : Option Int :=
  let cs := (s.toList).dropWhile cppIsSpace
  let signed : Bool × List Char :=
    match cs with
    | '-' :: rest => (true, rest)
    | '+' :: rest => (false, rest)
    | _ => (false, cs)
  let ds := signed.2.takeWhile Char.isDigit
  if ds.isEmpty then none
  else
    let v : Int := if signed.1 then -(digitsVal ds : Int) else (digitsVal ds : Int)
    if v < intMin ∨ intMax < v then none else some v

/-- One `operator<<` insertion on an output stream modelled as a buffer. -/
def osWrite (os : String) (s : String) : String := os ++ s

/-- `operator<<` for int: decimal notation with a leading minus sign for
negative values, exactly `toString` on `Int`. -/
def intShow (p : Int) : String := toString p

/-- `listen(host, port)` from main.cpp lines 4-7: five stream insertions
into `std::cout` and nothing else (the body is `TODO actually listen`).
`os` is the stream contents before the call. -/
def listen (os : String) (host : String) (port : Int) : String :=
  osWrite (osWrite (osWrite (osWrite (osWrite os "Listening on ") host) ":") (intShow port)) "\n"

/-- The `host` variable at the point of the `listen` call: initialised to
"127.0.0.1" (line 10) and overwritten by argv[1] when argc >= 2
(lines 13-15). -/
def hostOf (args : List String) : String :=
  (args[1]?).getD "127.0.0.1"

/-- The `port` variable at the point of the `listen` call: initialised to
8080 (line 11) and overwritten by `std::stoi(argv[2])` when argc >= 3
(lines 17-19); `none` when `std::stoi` raises. -/
def portOf (args : List String) : Option Int :=
  match args[2]? with
  | none => some 8080
  | some s => stoi s

/-- `main` from main.cpp lines 9-23: compute host and port from the
argument vector, call `listen`, return 0.  The result is the printed
output paired with the exit code; `none` models abnormal termination by
the uncaught exception out of `std::stoi`, before anything is printed. -/
def main (args : List String) : Option (String × Nat) :=
  match portOf args with
  | none => none
  | some p => some (listen "" (hostOf args) p, 0)

/-
  Spec-modelled Listener core (spec sections 3-5).  The repository contains
  no `start`, `stop`, accept loop, or any Listener component: the only code
  under src/ is the `listen` print stub.  The definitions below are
  therefore modelled from the spec's words, to settle the claims about the
  designed core.
-/

/-- Modelled from the spec: the bind-time error taxonomy of section 7;
no such type exists in src/. -/
inductive BindError where
  | addressInUse
  | invalidAddress
  | permissionDenied
deriving DecidableEq, Repr

/-- Modelled from the spec: ListenerConfig of section 3; no such struct
exists in src/. -/
structure ListenerConfig where
  host : String
  port : Nat
  backlog : Nat
  reuseAddress : Bool

/-- Modelled from the spec: the operating-system facts `start` consults at
bind time (whether the host resolves, which ports are already bound,
whether the process may bind privileged ports). -/
structure NetEnv where
  resolves : String → Bool
  portBound : Nat → Bool
  hasPrivilegedRights : Bool

/-- Modelled from the spec: accept-loop states of section 4.1. -/
inductive LState where
  | starting
  | accepting
  | stopping
  | stopped
deriving DecidableEq, Repr

/-- Modelled from the spec: a Listener with its accept-loop state and the
connections dispatched to the handler so far, in dispatch order.  `α` is
the opaque Connection type handed to the external handler. -/
structure Listener (α : Type) where
  state : LState
  dispatched : List α
deriving DecidableEq, Repr

/-- Modelled from the spec: `start(config, handler)` of section 4.1.
Fails with InvalidAddress when the host does not resolve, with
PermissionDenied for a privileged port (below 1024) without sufficient
rights, with AddressInUse when the port is already bound and
reuse_address is false; on success the accept loop is running
(state Accepting) with no dispatches yet. -/
def start {α : Type} (cfg : ListenerConfig) (env : NetEnv) :
    Except BindError (Listener α) :=
  if env.resolves cfg.host = false then .error .invalidAddress
  else if cfg.port < 1024 ∧ env.hasPrivilegedRights = false then .error .permissionDenied
  else if env.portBound cfg.port = true ∧ cfg.reuseAddress = false then .error .addressInUse
  else .ok { state := .accepting, dispatched := [] }

/-- Modelled from the spec: `stop(handle)` of section 4.1 moves the
Listener to the terminal Stopped state (socket closed); the record of
already-issued dispatches is unchanged. -/
def stop {α : Type} (l : Listener α) : Listener α :=
  { l with state := .stopped }

/-- Modelled from the spec: one step of the accept loop on an inbound
connection.  While Accepting, the connection is accepted and dispatched
to the handler (appended to the dispatch record); in any other state no
accept and no handler invocation occurs. -/
def acceptConn {α : Type} (l : Listener α) (c : α) : Listener α :=
  if l.state = .accepting then { l with dispatched := l.dispatched ++ [c] } else l

/-- Modelled from the spec: the accept loop run over a sequence of inbound
connections in kernel accept order. -/
def runAccept {α : Type} (l : Listener α) (cs : List α) : Listener α :=
  cs.foldl acceptConn l

/-- A concrete configuration for instantiating the Listener theorems. -/
def cfg0 : ListenerConfig :=
  { host := "127.0.0.1", port := 8080, backlog := 16, reuseAddress := false }

/-- A concrete environment in which no host resolves. -/
def env0 : NetEnv :=
  { resolves := fun _ => false, portBound := fun _ => false, hasPrivilegedRights := false }

/-- Any int value produced by `stoi` lies within the 32-bit int range. -/
theorem stoi_in_int_range (s : String) (p : Int) (h : stoi s = some p) :
    intMin ≤ p ∧ p ≤ intMax := by
  simp only [stoi] at h
  split at h
  · exact absurd h (by simp)
  · split at h
    · split at h
      · exact absurd h (by simp)
      · rename_i hrange
        rw [Option.some_inj] at h
        subst h
        push_neg at hrange
        exact ⟨hrange.1, hrange.2⟩
    · split at h
      · exact absurd h (by simp)
      · rename_i hrange
        rw [Option.some_inj] at h
        subst h
        push_neg at hrange
        exact ⟨hrange.1, hrange.2⟩

/-- The whole effect of `listen` on the stream: one appended line.
Shared helper behind the claim theorems. -/
theorem listen_append_eq (os host : String) (port : Int) :
    listen os host port =
      os ++ ("Listening on " ++ host ++ ":" ++ intShow port ++ "\n") := by
  simp [listen, osWrite, String.append_assoc]

/-- C3: `listen` is an unimplemented placeholder: for every host and port
its whole effect is to append the single line
"Listening on host:port\n" to the output stream; it returns nothing and
signals no error, so a bind failure is a silent no-op. -/
theorem listen_only_prints (os host : String) (port : Int) :
    listen os host port =
      os ++ ("Listening on " ++ host ++ ":" ++ intShow port ++ "\n") :=
  listen_append_eq os host port

/-- C1: the program reads at most the first two optional arguments, and
every normal run prints exactly one message, the single `listen` line for
the chosen host and port, and exits with code 0: no networking, no
protocol step and no concurrency appear in the observable behaviour. -/
theorem main_single_message (args : List String) (out : String) (code : Nat)
    (h : main args = some (out, code)) :
    code = 0 ∧
      ∃ p : Int, portOf args = some p ∧
        out = "Listening on " ++ hostOf args ++ ":" ++ intShow p ++ "\n" := by
  unfold main at h
  split at h
  · exact absurd h (by simp)
  · rename_i p hp
    rw [Option.some_inj, Prod.mk.injEq] at h
    refine ⟨h.2.symm, p, hp, ?_⟩
    rw [← h.1, listen_append_eq, String.empty_append]

/-- Witness for C1 at the bare invocation with no arguments. -/
theorem main_single_message_witness :
    (0 : Nat) = 0 ∧
      ∃ p : Int, portOf ["srv"] = some p ∧
        "Listening on 127.0.0.1:8080\n" =
          "Listening on " ++ hostOf ["srv"] ++ ":" ++ intShow p ++ "\n" :=
  main_single_message ["srv"] "Listening on 127.0.0.1:8080\n" 0 rfl

/-- C2: the host defaults to "127.0.0.1" and the port to 8080; a first
argument replaces the host and the `stoi` parse of a second argument
replaces the port, and `main` prints the line for exactly that pair. -/
theorem main_defaults (args : List String) :
    (args[1]? = none → hostOf args = "127.0.0.1") ∧
    (∀ a, args[1]? = some a → hostOf args = a) ∧
    (args[2]? = none → portOf args = some 8080) ∧
    (∀ s, args[2]? = some s → portOf args = stoi s) ∧
    (∀ p, portOf args = some p → main args = some (listen "" (hostOf args) p, 0)) := by
  refine ⟨?_, ?_, ?_, ?_, ?_⟩
  · intro h; simp [hostOf, h]
  · intro a h; simp [hostOf, h]
  · intro h; simp [portOf, h]
  · intro s h; simp [portOf, h]
  · intro p h; simp [main, h]

/-- Witness for C2: overriding both host and port, and the defaults. -/
theorem main_defaults_witness :
    hostOf ["srv", "example.org", "99"] = "example.org" ∧
    portOf ["srv", "example.org", "99"] = stoi "99" ∧
    hostOf ["srv"] = "127.0.0.1" ∧
    portOf ["srv"] = some 8080 :=
  ⟨(main_defaults ["srv", "example.org", "99"]).2.1 "example.org" rfl,
   (main_defaults ["srv", "example.org", "99"]).2.2.2.1 "99" rfl,
   (main_defaults ["srv"]).1 rfl,
   (main_defaults ["srv"]).2.2.1 rfl⟩

/-- C4: when a second argument is present but `stoi` fails on it (no
digits, or out of int range), `main` does not return normally: nothing is
printed and `listen` is never reached. -/
theorem main_bad_port_aborts (args : List String) (s : String)
    (h1 : args[2]? = some s) (h2 : stoi s = none) :
    main args = none := by
  simp [main, portOf, h1, h2]

/-- Witness for C4 at a non-numeric second argument. -/
theorem main_bad_port_aborts_witness :
    main ["srv", "h", "abc"] = none :=
  main_bad_port_aborts ["srv", "h", "abc"] "abc" rfl rfl

/-- C5: every run in which `listen` is reached and completes exits with
code 0; no other normal exit exists, and no bind-failure exit path exists
in the stub at all (the non-zero-on-bind-failure clause is vacuous). -/
theorem main_exit_zero (args : List String) (r : String × Nat)
    (h : main args = some r) : r.2 = 0 := by
  unfold main at h
  split at h
  · exact absurd h (by simp)
  · rw [Option.some_inj] at h
    rw [← h]

/-- Witness for C5 at the bare invocation. -/
theorem main_exit_zero_witness :
    (("Listening on 127.0.0.1:8080\n", 0) : String × Nat).2 = 0 :=
  main_exit_zero ["srv"] ("Listening on 127.0.0.1:8080\n", 0) rfl

/-- C10: arguments beyond the second are ignored: two runs whose argument
vectors agree at positions 1 and 2 have identical printed output and exit
behaviour. -/
theorem main_ignores_later_args (a b : List String)
    (h1 : a[1]? = b[1]?) (h2 : a[2]? = b[2]?) :
    main a = main b := by
  simp only [main, hostOf, portOf, h1, h2]

/-- Witness for C10: extra trailing arguments (and a different program
name) leave the behaviour unchanged. -/
theorem main_ignores_later_args_witness :
    main ["srv", "h", "80", "extra", "junk"] = main ["other", "h", "80"] :=
  main_ignores_later_args ["srv", "h", "80", "extra", "junk"] ["other", "h", "80"] rfl rfl

/-- C6 counterexample: the port 70000 lies outside 0-65535, yet the run
`srv h 70000` is not rejected: the program uses the port and prints it. -/
theorem port_range_counterexample :
    main ["srv", "h", "70000"] = some ("Listening on h:70000\n", 0) ∧
      (70000 : Int) > 65535 := by
  exact ⟨rfl, by decide⟩

/-- C6 amended: the only range restriction on the port is the int range
enforced by `std::stoi`: every parsed port lies in
[-2147483648, 2147483647], and every such port, including values outside
0-65535, is used unvalidated by the `listen` call. -/
theorem port_only_int_range (args : List String) (s : String) (p : Int)
    (h1 : args[2]? = some s) (h2 : stoi s = some p) :
    intMin ≤ p ∧ p ≤ intMax ∧
      main args = some (listen "" (hostOf args) p, 0) := by
  obtain ⟨hlo, hhi⟩ := stoi_in_int_range s p h2
  refine ⟨hlo, hhi, ?_⟩
  simp [main, portOf, h1, h2]

/-- Witness for the amended C6 at the out-of-0-65535 port 70000. -/
theorem port_only_int_range_witness :
    intMin ≤ (70000 : Int) ∧ (70000 : Int) ≤ intMax ∧
      main ["srv", "h", "70000"] = some (listen "" (hostOf ["srv", "h", "70000"]) 70000, 0) :=
  port_only_int_range ["srv", "h", "70000"] "70000" 70000 rfl rfl

/-- C7: `start` fails with InvalidAddress when the host does not resolve,
with PermissionDenied for a privileged port without sufficient rights,
with AddressInUse when the port is already bound and reuse_address is
false; otherwise it succeeds, returning a handle with the accept loop
running and no dispatch issued yet.  (Spec-modelled: no Listener exists
in src/.) -/
theorem start_result (α : Type) (cfg : ListenerConfig) (env : NetEnv) :
    (env.resolves cfg.host = false →
      start (α := α) cfg env = .error .invalidAddress) ∧
    (env.resolves cfg.host = true → cfg.port < 1024 →
      env.hasPrivilegedRights = false →
      start (α := α) cfg env = .error .permissionDenied) ∧
    (env.resolves cfg.host = true →
      (1024 ≤ cfg.port ∨ env.hasPrivilegedRights = true) →
      env.portBound cfg.port = true → cfg.reuseAddress = false →
      start (α := α) cfg env = .error .addressInUse) ∧
    (env.resolves cfg.host = true →
      (1024 ≤ cfg.port ∨ env.hasPrivilegedRights = true) →
      (env.portBound cfg.port = false ∨ cfg.reuseAddress = true) →
      start (α := α) cfg env = .ok { state := .accepting, dispatched := [] }) := by
  refine ⟨?_, ?_, ?_, ?_⟩
  · intro h; simp [start, h]
  · intro h1 h2 h3; simp [start, h1, h2, h3]
  · intro h1 h2 h3 h4
    have hnp : ¬(cfg.port < 1024 ∧ env.hasPrivilegedRights = false) := by
      rcases h2 with h2 | h2
      · intro hc; omega
      · intro hc; rw [h2] at hc; exact absurd hc.2 (by simp)
    simp [start, h1, hnp, h3, h4]
  · intro h1 h2 h3
    have hnp : ¬(cfg.port < 1024 ∧ env.hasPrivilegedRights = false) := by
      rcases h2 with h2 | h2
      · intro hc; omega
      · intro hc; rw [h2] at hc; exact absurd hc.2 (by simp)
    have hnb : ¬(env.portBound cfg.port = true ∧ cfg.reuseAddress = false) := by
      rcases h3 with h3 | h3
      · intro hc; rw [h3] at hc; exact absurd hc.1 (by simp)
      · intro hc; rw [h3] at hc; exact absurd hc.2 (by simp)
    simp [start, h1, hnp, hnb]

/-- Witness for C7: in an environment where no host resolves, `start`
fails with InvalidAddress. -/
theorem start_result_witness :
    start (α := Nat) cfg0 env0 = .error .invalidAddress :=
  (start_result Nat cfg0 env0).1 rfl

/-- C8: `stop` is idempotent: stopping twice equals stopping once; and no
handler invocation occurs after `stop` returns: a connection arriving at a
stopped Listener produces no dispatch and no state change.
(Spec-modelled: no Listener exists in src/.) -/
theorem stop_idempotent_no_dispatch (α : Type) (l : Listener α) (c : α) :
    stop (stop l) = stop l ∧ acceptConn (stop l) c = stop l := by
  constructor
  · rfl
  · simp [acceptConn, stop]

/-- C9: the Listener dispatches in FIFO order: running the accept loop
over any sequence of inbound connections appends exactly that sequence,
in order, to the dispatch record; no reordering is introduced.
(Spec-modelled: no Listener exists in src/.) -/
theorem dispatch_fifo (α : Type) (cs : List α) (l : Listener α)
    (h : l.state = .accepting) :
    (runAccept l cs).dispatched = l.dispatched ++ cs := by
  induction cs generalizing l with
  | nil => simp [runAccept]
  | cons c cs ih =>
    have hstep : acceptConn l c = { l with dispatched := l.dispatched ++ [c] } := by
      simp [acceptConn, h]
    have : runAccept l (c :: cs) = runAccept (acceptConn l c) cs := by
      simp [runAccept]
    rw [this, hstep, ih { l with dispatched := l.dispatched ++ [c] } h]
    simp

/-- Witness for C9: three connections accepted from the fresh Accepting
state are dispatched as exactly that sequence. -/
theorem dispatch_fifo_witness :
    (runAccept ({ state := .accepting, dispatched := [] } : Listener Nat)
        [10, 20, 30]).dispatched = [] ++ [10, 20, 30] :=
  dispatch_fifo Nat [10, 20, 30] { state := .accepting, dispatched := [] } rfl

end Tatsoryk
